import Mathlib

/-!
Verification development for the `python-iap` receipt-validation library
(package `iap`, module `iap/utils.py`).

The Python source is shallowly embedded: Python dict-shaped records become
Lean structures or association lists, machine-level DER parsing done by the
`asn1crypto` library is abstracted as per-attribute decode results carried on
the input (the code under verification never inspects DER bytes itself, it
only dispatches on the already-parsed attribute stream), and raised
exceptions become explicit outcome constructors.  `Option` results model
"returns a value / raises".
-/

/-- Values a decoded ASN.1 scalar can take after `.native` (string, integer,
or raw octet bytes). -/
inductive PyVal
  | str (s : String)
  | int (n : Int)
  | bytes (b : List Nat)
deriving DecidableEq, Repr

/-- Python dict assignment `d[k] = v`: replace the binding of `k` if present,
else append it. -/
def dictSet : List (String × PyVal) → String → PyVal → List (String × PyVal)
  | [], k, v => [(k, v)]
  | (k', v') :: rest, k, v =>
      if k' = k then (k, v) :: rest else (k', v') :: dictSet rest k v

/-- Python dict lookup `d.get(k)`: the value bound to `k`, or `none`. -/
def dictGet : List (String × PyVal) → String → Option PyVal
  | [], _ => none
  | (k', v') :: rest, k => if k' = k then some v' else dictGet rest k

theorem dictGet_dictSet_same (d : List (String × PyVal)) (k : String) (v : PyVal) :
    dictGet (dictSet d k v) k = some v := by
  induction d with
  | nil => simp [dictSet, dictGet]
  | cons hd tl ih =>
      obtain ⟨k', v'⟩ := hd
      by_cases h : k' = k <;> simp [dictSet, dictGet, h, ih]

theorem dictGet_dictSet_other (d : List (String × PyVal)) (k k' : String) (v : PyVal)
    (h : k' ≠ k) : dictGet (dictSet d k v) k' = dictGet d k' := by
  induction d with
  | nil => simp [dictSet, dictGet, Ne.symm h]
  | cons hd tl ih =>
      obtain ⟨k0, v0⟩ := hd
      by_cases h0 : k0 = k
      · subst h0
        simp [dictSet, dictGet, Ne.symm h]
      · by_cases h1 : k0 = k' <;> simp [dictSet, dictGet, h, h0, h1, ih]

/-- Lookup table built from `RECEIPT_FIELD_MAP` in `iap/utils.py`
(`attr["type"].native` resolves a known type code to the field name; codes
outside the map stay unmapped). -/
def receiptFieldName (t : Int) : Option String :=
  if t = 0 then some "_environment"
  else if t = 2 then some "bundle_id"
  else if t = 3 then some "application_version"
  else if t = 4 then some "_opaque_value"
  else if t = 5 then some "_sha1_hash"
  else if t = 12 then some "creation_date"
  else if t = 17 then some "in_app"
  else if t = 18 then some "original_purchase_date"
  else if t = 19 then some "original_application_version"
  else if t = 21 then some "expiration_date"
  else none

/-- Lookup table built from `IN_APP_FIELD_MAP` in `iap/utils.py`. -/
def inAppFieldName (t : Int) : Option String :=
  if t = 1701 then some "quantity"
  else if t = 1702 then some "product_id"
  else if t = 1703 then some "transaction_id"
  else if t = 1704 then some "purchase_date"
  else if t = 1705 then some "original_transaction_id"
  else if t = 1706 then some "original_purchase_date"
  else if t = 1708 then some "expires_date"
  else if t = 1711 then some "web_order_line_item_id"
  else if t = 1712 then some "cancellation_date"
  else if t = 1719 then some "is_in_intro_offer_period"
  else none

/-- One attribute of a nested in-app SET OF, as produced by
`InAppPayload.load`: its integer type code, version, the raw value octets,
and the result of decoding the value with the mapped ASN.1 class
(`none` means that decode raises). -/
structure InAppRawAttr where
  typeCode : Int
  version : Int
  valueBytes : List Nat
  innerDecode : Option PyVal
deriving DecidableEq, Repr

/-- One attribute of the outer receipt SET OF, as produced by `Receipt.load`.
`innerDecode` is the result of `type_class.load(value).native` for the class
mapped to this type code (`none` = raises); `nestedLoad` is the result of
`InAppPayload.load(value)` (`none` = raises), consulted only for type 17. -/
structure RawAttr where
  typeCode : Int
  version : Int
  valueBytes : List Nat
  innerDecode : Option PyVal
  nestedLoad : Option (List InAppRawAttr)
deriving DecidableEq, Repr

/-- Worker for `decodeInAppEntry`, folding the entry dict from the left. -/
def decodeInAppEntryGo (acc : List (String × PyVal)) :
    List InAppRawAttr → Option (List (String × PyVal))
  | [] => some acc
  | attr :: rest =>
      match inAppFieldName attr.typeCode with
      | some name =>
          match attr.innerDecode with
          | some v => decodeInAppEntryGo (dictSet acc name v) rest
          | none => none
      | none => decodeInAppEntryGo acc rest

/-- Decode one in-app entry: the inner loop of `_decode_iap`.  Unknown type
codes are dropped; a failing inner decode raises (there is no try/except in
`_decode_iap`), modelled as `none`. -/
def decodeInAppEntry : List InAppRawAttr → Option (List (String × PyVal)) :=
  decodeInAppEntryGo []

/-- The `_decode_iap` helper of `iap/utils.py`: decode each stored in-app
value.  `InAppPayload.load` or an inner field decode raising aborts the whole
decode (`none`). -/
def decodeIapList : List RawAttr → Option (List (List (String × PyVal)))
  | [] => some []
  | a :: rest =>
      match a.nestedLoad with
      | none => none
      | some nested =>
          match decodeInAppEntry nested with
          | none => none
          | some entry =>
              match decodeIapList rest with
              | none => none
              | some more => some (entry :: more)

/-- Value stored for a mapped top-level scalar attribute: the decoded native
value, or — when the inner decode raises — the raw value octets
(the `try/except` fallback in `decode_receipt`). -/
def storeVal (attr : RawAttr) : PyVal :=
  match attr.innerDecode with
  | some v => v
  | none => PyVal.bytes attr.valueBytes

/-- One step of the first loop of `decode_receipt`: accumulate scalar fields
(last write wins) and collect type-17 attributes for `_decode_iap`. -/
def decodeFieldsStep (acc : List (String × PyVal) × List RawAttr) (attr : RawAttr) :
    List (String × PyVal) × List RawAttr :=
  match receiptFieldName attr.typeCode with
  | some name =>
      if name = "in_app" then (acc.1, acc.2 ++ [attr])
      else (dictSet acc.1 name (storeVal attr), acc.2)
  | none => acc

/-- Result of `decode_receipt`: the scalar fields dict, the decoded `in_app`
list, and the derived `_sandbox` flag (in the Python code all three live in
one dict under disjoint keys). -/
structure DecodedReceipt where
  fields : List (String × PyVal)
  in_app : List (List (String × PyVal))
  sandbox : Bool
deriving DecidableEq, Repr

/-- The first loop of `decode_receipt`: the scalar field dict and the
collected type-17 attributes. -/
def decodeFields (attrs : List RawAttr) : List (String × PyVal) × List RawAttr :=
  attrs.foldl decodeFieldsStep ([], [])

/-- The `decode_receipt` function of `iap/utils.py`, over the attribute
stream produced by `Receipt.load`.  Returns `none` exactly when an uncaught
exception escapes (which can only come from `_decode_iap`). -/
def decode_receipt (attrs : List RawAttr) : Option DecodedReceipt :=
  match decodeIapList (decodeFields attrs).2 with
  | none => none
  | some decoded =>
      some { fields := (decodeFields attrs).1
             in_app := decoded
             sandbox :=
               decide (dictGet (decodeFields attrs).1 "original_application_version" =
                 some (PyVal.str "1.0"))
               && !decide (dictGet (decodeFields attrs).1 "_environment" =
                 some (PyVal.str "Production")) }

example : decode_receipt [] = some { fields := [], in_app := [], sandbox := false } := by
  decide

/-- Python truthiness of an optional string value: present and non-empty. -/
def truthyOptStr : Option String → Bool
  | none => false
  | some s => s != ""

/-- One in-app purchase entry of Apple's JSON response, restricted to the
keys the library reads.  The `*_ms` fields carry the value already coerced by
Python `int(...)`; an absent key is `none`. -/
structure JsonIap where
  cancellation_date : Option String := none
  product_id : Option String := none
  expires_date_ms : Option Int := none
  original_purchase_date_ms : Option Int := none
deriving DecidableEq, Repr

/-- The `receipt` object of Apple's JSON response, restricted to the keys the
library reads or writes.  `otherKeys` counts response keys outside this
model, so that dict truthiness stays faithful. -/
structure JsonReceipt where
  bundle_id : Option String := none
  original_application_version : Option String := none
  environment : Option String := none
  in_app : Option (List JsonIap) := none
  latest_receipt : Option String := none
  sandbox : Option Bool := none
  latest_receipt_encoded : Option String := none
  latest_receipt_bytes : Option (List Nat) := none
  otherKeys : Nat := 0
deriving DecidableEq, Repr

/-- Python truthiness of the receipt dict: it holds at least one key. -/
def JsonReceipt.isTruthy (r : JsonReceipt) : Bool :=
  r.bundle_id.isSome || r.original_application_version.isSome ||
  r.environment.isSome || r.in_app.isSome || r.latest_receipt.isSome ||
  r.sandbox.isSome || r.latest_receipt_encoded.isSome ||
  r.latest_receipt_bytes.isSome || (r.otherKeys != 0)

/-- The parsed JSON body of a verification response, restricted to the keys
the library reads. -/
structure JsonContent where
  status : Option Int := none
  receipt : Option JsonReceipt := none
  latest_receipt_info : Option (List JsonIap) := none
deriving DecidableEq, Repr

/-- What one POST to a verification endpoint comes back as:
`transportError` = `raise_for_status` raises, `invalidJson` = `r.json()`
raises `JSONDecodeError`, `json c` = a parsed body. -/
inductive ApplePost
  | transportError
  | invalidJson
  | json (c : JsonContent)
deriving DecidableEq, Repr

/-- The JSON payload POSTed to Apple (`receipt-data` plus the optional
`password` key, which is set only when the configured shared secret is
truthy). -/
structure Payload where
  receiptData : String
  password : Option String
deriving DecidableEq, Repr

/-- Payload construction at the top of `validate_receipt_with_apple`. -/
def mkPayload (b64encode : List Nat → String) (sharedSecret : Option String)
    (data : List Nat) : Payload :=
  { receiptData := b64encode data
    password := if truthyOptStr sharedSecret then sharedSecret else none }

/-- Exception classes `validate_receipt_with_apple` can raise:
`fatal` = `ReceiptValidationException`, `retry` = `RetryReceiptValidation`
(its retryable subclass), `noPurchases` = `NoPurchasesException`,
`transportError` = the `requests` HTTP error from `raise_for_status`. -/
inductive VError
  | fatal (msg : String)
  | retry (msg : String)
  | noPurchases (msg : String)
  | transportError
deriving DecidableEq, Repr

/-- Outcome of `validate_receipt_with_apple`: the returned content, a raised
exception, or the Python loop falling through (returning `None`). -/
inductive VOutcome
  | ok (content : JsonContent)
  | exn (e : VError)
  | noReturn
deriving DecidableEq, Repr

/-- What handling one endpoint's response does: raise, `continue` to the
next url, or `return content`. -/
inductive StepR
  | raise (e : VError)
  | next
  | done (c : JsonContent)
deriving DecidableEq, Repr

/-- The body of the url loop in `validate_receipt_with_apple`
(`iap/utils.py` lines 307-406): transport and JSON errors, the status-code
dispatch chain in source order, and the status-0 success path that annotates
`receipt["_sandbox"] = not is_production_url` and decodes `latest_receipt`.
`b64decode` abstracts `base64.b64decode` (`none` = raises the caught
decoding error). -/
def processResponse (isProd : Bool) (b64decode : String → Option (List Nat))
    (resp : ApplePost) : StepR :=
  match resp with
  | ApplePost.transportError => StepR.raise VError.transportError
  | ApplePost.invalidJson => StepR.raise (VError.fatal "Unable to read response")
  | ApplePost.json content =>
      match content.status with
      | none => StepR.raise (VError.fatal "Unknown response format")
      | some status =>
          if status = 21000 then StepR.raise (VError.fatal "Unable to read payload")
          else if status = 21002 then
            StepR.raise (VError.fatal "Malformed receipt-data")
          else if status = 21003 then
            StepR.raise (VError.fatal "Receipt is from an unknown source")
          else if status = 21004 then
            StepR.raise (VError.fatal "The shared secret does not match")
          else if status = 21005 then
            StepR.raise (VError.retry "Server Unavailable")
          else if status = 21006 then
            StepR.raise (VError.fatal "Inactive subscription")
          else if status = 21007 then
            if isProd then StepR.next
            else StepR.raise (VError.fatal "Cannot try another url!")
          else if status = 21008 then
            StepR.raise (VError.fatal "We already tried prod!")
          else if status = 21010 then
            StepR.raise (VError.noPurchases "The receipt could not be authorized")
          else if status = 21009 then
            StepR.raise (VError.retry "Internal Apple error. Retry")
          else if 21100 ≤ status ∧ status ≤ 21199 then
            StepR.raise (VError.retry
              ("Internal data access error " ++ toString status ++ ". Retry"))
          else if status ≠ 0 then
            StepR.raise (VError.retry
              ("Unknown status code " ++ toString status ++ ". Retry"))
          else
            match content.receipt with
            | none => StepR.raise (VError.fatal "Unable to get receipt from Apple")
            | some receipt0 =>
                if !receipt0.isTruthy then
                  StepR.raise (VError.fatal "Not enough receipt!")
                else
                  if (receipt0.in_app.getD []).isEmpty then
                    StepR.raise (VError.noPurchases "No IAPs for receipt!")
                  else
                    match receipt0.latest_receipt with
                    | none =>
                        StepR.done
                          { content with
                            receipt := some { receipt0 with sandbox := some (!isProd) } }
                    | some lr =>
                        if lr != "" then
                          match b64decode lr with
                          | none =>
                              StepR.raise (VError.fatal "Cannot decode latest_receipt")
                          | some bs =>
                              StepR.done
                                { content with
                                  receipt := some
                                    { receipt0 with
                                      sandbox := some (!isProd)
                                      latest_receipt_encoded := some lr
                                      latest_receipt_bytes := some bs } }
                        else
                          StepR.done
                            { content with
                              receipt := some { receipt0 with sandbox := some (!isProd) } }

/-- The url loop of `validate_receipt_with_apple`, over the endpoint list
(`true` = production url, `false` = sandbox url).  Returns the outcome and
the trace of POSTs made, in order, each with the payload it sent. -/
def runUrls (b64decode : String → Option (List Nat)) (oracle : Bool → ApplePost)
    (payload : Payload) : List Bool → VOutcome × List (Bool × Payload)
  | [] => (VOutcome.noReturn, [])
  | isProd :: rest =>
      match processResponse isProd b64decode (oracle isProd) with
      | StepR.raise e => (VOutcome.exn e, [(isProd, payload)])
      | StepR.done c => (VOutcome.ok c, [(isProd, payload)])
      | StepR.next =>
          let r := runUrls b64decode oracle payload rest
          (r.1, (isProd, payload) :: r.2)

/-- The `validate_receipt_with_apple` function of `iap/utils.py`.
`b64encode`/`b64decode` abstract the base64 codec, `sharedSecret` the
`IAP_SHARED_SECRET` setting, and `oracle` gives each endpoint's response
(the loop posts to production then, only on `continue`, to sandbox). -/
def validate_receipt_with_apple (b64encode : List Nat → String)
    (b64decode : String → Option (List Nat)) (sharedSecret : Option String)
    (oracle : Bool → ApplePost) (data : List Nat) :
    VOutcome × List (Bool × Payload) :=
  runUrls b64decode oracle (mkPayload b64encode sharedSecret data) [true, false]

example :
    (validate_receipt_with_apple (fun _ => "r") (fun _ => none) none
      (fun _ => ApplePost.json { status := some 21005 }) []).1 =
      VOutcome.exn (VError.retry "Server Unavailable") := by
  decide

/-- Grace period set at the top of `validate_receipt_is_active`, in
milliseconds: one minute under `is_test`, otherwise one day. -/
def gracePeriodMs (is_test : Bool) : Int :=
  if is_test then 60000 else 86400000

/-- The `product_id` filter test of the activity loop:
`product_id is not None and iap.get("product_id") != product_id`. -/
def productMismatch (product_id : Option String) (iap : JsonIap) : Bool :=
  match product_id with
  | some p => iap.product_id != some p
  | none => false

/-- What one iteration of the activity loop does with an entry: `active` =
`return`, `skip` = `continue` via the cancellation or product-filter guard,
`inactive` = the time-window check fails and the loop moves on, `keyError` =
`iap["original_purchase_date_ms"]` raises `KeyError`. -/
inductive IapStep
  | active
  | skip
  | inactive
  | keyError
deriving DecidableEq, Repr

/-- One iteration of the activity loop of `validate_receipt_is_active`
(`iap/utils.py` lines 494-519).  Timestamps and durations are in
milliseconds; `now` is the value of `datetime.datetime.utcnow()`. -/
def evalIap (now grace period : Int) (product_id : Option String)
    (iap : JsonIap) : IapStep :=
  if truthyOptStr iap.cancellation_date then IapStep.skip
  else if productMismatch product_id iap then IapStep.skip
  else
    let expires_date_ms := iap.expires_date_ms.getD 0
    if expires_date_ms ≠ 0 then
      if now < expires_date_ms + grace then IapStep.active else IapStep.inactive
    else
      match iap.original_purchase_date_ms with
      | none => IapStep.keyError
      | some p =>
          if now < p + period + grace then IapStep.active else IapStep.inactive

/-- Result of the activity loop as a whole: plain return (`active`), the
closing `NoActiveReceiptException`, or an uncaught `KeyError`. -/
inductive ActivityResult
  | active
  | noActiveReceipt
  | keyError
deriving DecidableEq, Repr

/-- The activity loop of `validate_receipt_is_active` over the reconciled
in-app entries. -/
def evalIaps (now grace period : Int) (product_id : Option String) :
    List JsonIap → ActivityResult
  | [] => ActivityResult.noActiveReceipt
  | iap :: rest =>
      match evalIap now grace period product_id iap with
      | IapStep.active => ActivityResult.active
      | IapStep.keyError => ActivityResult.keyError
      | IapStep.skip => evalIaps now grace period product_id rest
      | IapStep.inactive => evalIaps now grace period product_id rest

/-- The activity-evaluation stage of `validate_receipt_is_active`
(everything after the remote call and local policy validation, `iap/utils.py`
lines 457-522): fixes the grace period from `is_test` and runs the loop over
the reconciled entries with the caller's subscription `timedelta`. -/
def validate_receipt_is_active_eval (timedelta_ms : Int) (is_test : Bool)
    (product_id : Option String) (iaps : List JsonIap) (now : Int) :
    ActivityResult :=
  evalIaps now (gracePeriodMs is_test) timedelta_ms product_id iaps

example :
    validate_receipt_is_active_eval 0 false none
      [{ expires_date_ms := some (1700000000000 - 1000) }] 1700000000000 =
      ActivityResult.active := by
  decide

/-- C1: when the production endpoint answers status 21007,
`validate_receipt_with_apple` makes exactly one additional POST, to the
sandbox endpoint, with the identical payload (so it never retries
sandbox-to-production); and when the sandbox endpoint then also answers
21007 it raises a fatal `ReceiptValidationException` with no further call
(the trace still has exactly the two POSTs). -/
theorem c1_status_21007_fallback (b64e : List Nat → String)
    (b64d : String → Option (List Nat)) (secret : Option String)
    (oracle : Bool → ApplePost) (data : List Nat) (c : JsonContent)
    (hprod : oracle true = ApplePost.json c) (hst : c.status = some 21007) :
    (validate_receipt_with_apple b64e b64d secret oracle data).2 =
        [(true, mkPayload b64e secret data), (false, mkPayload b64e secret data)] ∧
    ∀ c', oracle false = ApplePost.json c' → c'.status = some 21007 →
      (validate_receipt_with_apple b64e b64d secret oracle data).1 =
        VOutcome.exn (VError.fatal "Cannot try another url!") := by
  have hstep : processResponse true b64d (oracle true) = StepR.next := by
    rw [hprod]; simp [processResponse, hst]
  constructor
  · unfold validate_receipt_with_apple runUrls
    rw [hstep]
    cases h2 : processResponse false b64d (oracle false) <;> simp [runUrls, h2]
  · intro c' hsand hst'
    have hstep2 : processResponse false b64d (oracle false) =
        StepR.raise (VError.fatal "Cannot try another url!") := by
      rw [hsand]; simp [processResponse, hst']
    simp [validate_receipt_with_apple, runUrls, hstep, hstep2]

/-- Witness for C1 at a concrete oracle answering 21007 on both endpoints. -/
theorem c1_status_21007_fallback_witness :
    (validate_receipt_with_apple (fun _ => "r") (fun _ => none) none
        (fun _ => ApplePost.json { status := some 21007 }) []).2 =
      [(true, mkPayload (fun _ => "r") none []),
       (false, mkPayload (fun _ => "r") none [])] ∧
    (validate_receipt_with_apple (fun _ => "r") (fun _ => none) none
        (fun _ => ApplePost.json { status := some 21007 }) []).1 =
      VOutcome.exn (VError.fatal "Cannot try another url!") := by
  have h := c1_status_21007_fallback (fun _ => "r") (fun _ => none) none
    (fun _ => ApplePost.json { status := some 21007 }) []
    { status := some 21007 } rfl rfl
  exact ⟨h.1, h.2 { status := some 21007 } rfl rfl⟩

/-- C2: a parsed response with status 21005 makes
`validate_receipt_with_apple` raise the retryable `RetryReceiptValidation`
("Server Unavailable"), not the plain fatal `ReceiptValidationException`;
this holds both on the production call and on the sandbox call reached after
a production 21007. -/
theorem c2_status_21005_retry (b64e : List Nat → String)
    (b64d : String → Option (List Nat)) (secret : Option String)
    (oracle : Bool → ApplePost) (data : List Nat) :
    (∀ c, oracle true = ApplePost.json c → c.status = some 21005 →
      (validate_receipt_with_apple b64e b64d secret oracle data).1 =
        VOutcome.exn (VError.retry "Server Unavailable")) ∧
    (∀ c c', oracle true = ApplePost.json c → c.status = some 21007 →
      oracle false = ApplePost.json c' → c'.status = some 21005 →
      (validate_receipt_with_apple b64e b64d secret oracle data).1 =
        VOutcome.exn (VError.retry "Server Unavailable")) := by
  constructor
  · intro c hprod hst
    have hstep : processResponse true b64d (oracle true) =
        StepR.raise (VError.retry "Server Unavailable") := by
      rw [hprod]; simp [processResponse, hst]
    unfold validate_receipt_with_apple runUrls
    rw [hstep]
  · intro c c' hprod hst hsand hst'
    have hstep : processResponse true b64d (oracle true) = StepR.next := by
      rw [hprod]; simp [processResponse, hst]
    have hstep2 : processResponse false b64d (oracle false) =
        StepR.raise (VError.retry "Server Unavailable") := by
      rw [hsand]; simp [processResponse, hst']
    simp [validate_receipt_with_apple, runUrls, hstep, hstep2]

/-- Witness for C2: once with 21005 straight from production, once with
21005 from sandbox after a production 21007. -/
theorem c2_status_21005_retry_witness :
    (validate_receipt_with_apple (fun _ => "r") (fun _ => none) none
        (fun _ => ApplePost.json { status := some 21005 }) []).1 =
      VOutcome.exn (VError.retry "Server Unavailable") ∧
    (validate_receipt_with_apple (fun _ => "r") (fun _ => none) none
        (fun b => if b then ApplePost.json { status := some 21007 }
                  else ApplePost.json { status := some 21005 }) []).1 =
      VOutcome.exn (VError.retry "Server Unavailable") := by
  refine ⟨(c2_status_21005_retry (fun _ => "r") (fun _ => none) none
      (fun _ => ApplePost.json { status := some 21005 }) []).1
      { status := some 21005 } rfl rfl, ?_⟩
  exact (c2_status_21005_retry (fun _ => "r") (fun _ => none) none
      (fun b => if b then ApplePost.json { status := some 21007 }
                else ApplePost.json { status := some 21005 }) []).2
      { status := some 21007 } { status := some 21005 } rfl rfl rfl rfl

/-- Entries the loop skips contribute nothing to the activity decision. -/
theorem evalIaps_skip_middle (now grace period : Int) (pid : Option String)
    (e : JsonIap) (he : evalIap now grace period pid e = IapStep.skip)
    (xs ys : List JsonIap) :
    evalIaps now grace period pid (xs ++ e :: ys) =
      evalIaps now grace period pid (xs ++ ys) := by
  induction xs with
  | nil => simp [evalIaps, he]
  | cons x xs ih =>
      cases hx : evalIap now grace period pid x <;> simp [evalIaps, hx, ih]

/-- C3: an entry carrying a (nonzero) `expires_date_ms`, neither cancelled
nor filtered out, is judged active exactly when
`now < expires_date + grace_period`; concretely, under the production 1-day
grace period a single entry expiring 1000 ms ago is reported active, and one
expiring 2 days ago makes the evaluator raise the no-active-purchase error. -/
theorem c3_expiry_window (timedelta_ms : Int) (is_test : Bool)
    (pid : Option String) (iap : JsonIap) (now : Int)
    (hcancel : truthyOptStr iap.cancellation_date = false)
    (hfilter : productMismatch pid iap = false)
    (hexp : iap.expires_date_ms.getD 0 ≠ 0) :
    (evalIap now (gracePeriodMs is_test) timedelta_ms pid iap = IapStep.active ↔
      now < iap.expires_date_ms.getD 0 + gracePeriodMs is_test) ∧
    (∀ td now', now' ≠ 1000 →
      validate_receipt_is_active_eval td false none
        [{ expires_date_ms := some (now' - 1000) }] now' = ActivityResult.active) ∧
    (∀ td now', now' ≠ 172800000 →
      validate_receipt_is_active_eval td false none
        [{ expires_date_ms := some (now' - 172800000) }] now' =
        ActivityResult.noActiveReceipt) := by
  refine ⟨?_, ?_, ?_⟩
  · by_cases h : now < iap.expires_date_ms.getD 0 + gracePeriodMs is_test <;>
      simp [evalIap, hcancel, hfilter, hexp, h]
  · intro td now' hne
    have h1 : now' - 1000 ≠ 0 := by omega
    have h2 : now' < now' - 1000 + 86400000 := by omega
    simp [validate_receipt_is_active_eval, evalIaps, evalIap, gracePeriodMs,
      truthyOptStr, productMismatch, h1, h2]
  · intro td now' hne
    have h1 : now' - 172800000 ≠ 0 := by omega
    have h2 : ¬ now' < now' - 172800000 + 86400000 := by omega
    simp [validate_receipt_is_active_eval, evalIaps, evalIap, gracePeriodMs,
      truthyOptStr, productMismatch, h1, h2]

/-- Witness for C3 at a concrete entry and times. -/
theorem c3_expiry_window_witness :
    (evalIap 0 (gracePeriodMs false) 0 none { expires_date_ms := some 100 } =
        IapStep.active ↔ (0 : Int) < 100 + gracePeriodMs false) ∧
    validate_receipt_is_active_eval 5 false none
      [{ expires_date_ms := some (1700000000000 - 1000) }] 1700000000000 =
      ActivityResult.active ∧
    validate_receipt_is_active_eval 5 false none
      [{ expires_date_ms := some (1700000000000 - 172800000) }] 1700000000000 =
      ActivityResult.noActiveReceipt := by
  have h := c3_expiry_window 0 false none { expires_date_ms := some 100 } 0
    rfl rfl (by decide)
  exact ⟨h.1, h.2.1 5 1700000000000 (by decide), h.2.2 5 1700000000000 (by decide)⟩

/-- C4: an entry whose `cancellation_date` is set (a non-empty string, the
Python-truthy case) is skipped by the loop, so it is never treated as active
and contributes nothing to the decision, whatever its other fields hold. -/
theorem c4_cancelled_never_active (now grace period : Int) (pid : Option String)
    (e : JsonIap) (hc : truthyOptStr e.cancellation_date = true) :
    evalIap now grace period pid e = IapStep.skip ∧
    ∀ xs ys, evalIaps now grace period pid (xs ++ e :: ys) =
      evalIaps now grace period pid (xs ++ ys) := by
  have hskip : evalIap now grace period pid e = IapStep.skip := by
    simp [evalIap, hc]
  exact ⟨hskip, fun xs ys => evalIaps_skip_middle now grace period pid e hskip xs ys⟩

/-- Witness for C4: a cancelled entry with a far-future expiry is skipped. -/
theorem c4_cancelled_never_active_witness :
    evalIap 0 86400000 0 none
      { cancellation_date := some "2020-01-01", expires_date_ms := some 99999999999 } =
      IapStep.skip ∧
    evalIaps 0 86400000 0 none
      ([] ++ { cancellation_date := some "2020-01-01",
               expires_date_ms := some (99999999999 : Int) } :: []) =
      evalIaps 0 86400000 0 none ([] ++ []) := by
  have h := c4_cancelled_never_active 0 86400000 0 none
    { cancellation_date := some "2020-01-01", expires_date_ms := some 99999999999 }
    (by decide)
  exact ⟨h.1, h.2 [] []⟩

/-- C8: under a `product_id` filter, an entry for a different product id is
skipped by the loop and contributes nothing to the decision, even if it
would otherwise be inside its active window; so only matching entries can
make the receipt count as active. -/
theorem c8_product_filter (now grace period : Int) (p : String) (e : JsonIap)
    (hne : e.product_id ≠ some p) :
    evalIap now grace period (some p) e = IapStep.skip ∧
    ∀ xs ys, evalIaps now grace period (some p) (xs ++ e :: ys) =
      evalIaps now grace period (some p) (xs ++ ys) := by
  have hskip : evalIap now grace period (some p) e = IapStep.skip := by
    by_cases hc : truthyOptStr e.cancellation_date <;>
      simp [evalIap, hc, productMismatch, bne_iff_ne, hne]
  exact ⟨hskip, fun xs ys => evalIaps_skip_middle now grace period (some p) e hskip xs ys⟩

/-- Witness for C8: an otherwise-active entry for another product is skipped. -/
theorem c8_product_filter_witness :
    evalIap 0 86400000 0 (some "com.app.gold")
      { product_id := some "com.app.silver", expires_date_ms := some 99999999999 } =
      IapStep.skip ∧
    evalIaps 0 86400000 0 (some "com.app.gold")
      ([] ++ { product_id := some "com.app.silver",
               expires_date_ms := some (99999999999 : Int) } :: []) =
      evalIaps 0 86400000 0 (some "com.app.gold") ([] ++ []) := by
  have h := c8_product_filter 0 86400000 0 "com.app.gold"
    { product_id := some "com.app.silver", expires_date_ms := some 99999999999 }
    (by decide)
  exact ⟨h.1, h.2 [] []⟩

/-- C10: an entry that is not cancelled, passes the product filter, has no
nonzero `expires_date_ms`, and lacks the `original_purchase_date_ms` key
makes the loop raise `KeyError` (an error outside the documented taxonomy)
instead of skipping the entry or raising the no-active-purchase error. -/
theorem c10_missing_purchase_date_keyerror (timedelta_ms : Int) (is_test : Bool)
    (pid : Option String) (e : JsonIap) (now : Int)
    (hcancel : truthyOptStr e.cancellation_date = false)
    (hfilter : productMismatch pid e = false)
    (hexp : e.expires_date_ms.getD 0 = 0)
    (hmiss : e.original_purchase_date_ms = none) :
    evalIap now (gracePeriodMs is_test) timedelta_ms pid e = IapStep.keyError ∧
    ∀ rest, validate_receipt_is_active_eval timedelta_ms is_test pid (e :: rest) now =
      ActivityResult.keyError := by
  have h : evalIap now (gracePeriodMs is_test) timedelta_ms pid e =
      IapStep.keyError := by
    simp [evalIap, hcancel, hfilter, hexp, hmiss]
  exact ⟨h, fun rest => by simp [validate_receipt_is_active_eval, evalIaps, h]⟩

/-- Witness for C10 at the empty entry. -/
theorem c10_missing_purchase_date_keyerror_witness :
    evalIap 0 (gracePeriodMs false) 0 none {} = IapStep.keyError ∧
    validate_receipt_is_active_eval 0 false none [{}] 0 = ActivityResult.keyError := by
  have h := c10_missing_purchase_date_keyerror 0 false none {} 0 rfl rfl rfl rfl
  exact ⟨h.1, h.2 []⟩
theorem processResponse_done_receipt (isProd : Bool)
    (b64d : String → Option (List Nat)) (resp : ApplePost) (c : JsonContent)
    (h : processResponse isProd b64d resp = StepR.done c) :
    ∃ rec, c.receipt = some rec ∧ rec.sandbox = some (!isProd) := by
  unfold processResponse at h
  split at h
  next => exact StepR.noConfusion h
  next => exact StepR.noConfusion h
  next content =>
  split at h
  next => exact StepR.noConfusion h
  next status hst =>
  rcases eq_or_ne status 21000 with h0 | h0
  · rw [if_pos h0] at h; exact StepR.noConfusion h
  rw [if_neg h0] at h
  rcases eq_or_ne status 21002 with h1 | h1
  · rw [if_pos h1] at h; exact StepR.noConfusion h
  rw [if_neg h1] at h
  rcases eq_or_ne status 21003 with h2 | h2
  · rw [if_pos h2] at h; exact StepR.noConfusion h
  rw [if_neg h2] at h
  rcases eq_or_ne status 21004 with h3 | h3
  · rw [if_pos h3] at h; exact StepR.noConfusion h
  rw [if_neg h3] at h
  rcases eq_or_ne status 21005 with h4 | h4
  · rw [if_pos h4] at h; exact StepR.noConfusion h
  rw [if_neg h4] at h
  rcases eq_or_ne status 21006 with h5 | h5
  · rw [if_pos h5] at h; exact StepR.noConfusion h
  rw [if_neg h5] at h
  rcases eq_or_ne status 21007 with h6 | h6
  · rw [if_pos h6] at h
    by_cases hp : isProd = true
    · rw [if_pos hp] at h; exact StepR.noConfusion h
    · rw [if_neg hp] at h; exact StepR.noConfusion h
  rw [if_neg h6] at h
  rcases eq_or_ne status 21008 with h7 | h7
  · rw [if_pos h7] at h; exact StepR.noConfusion h
  rw [if_neg h7] at h
  rcases eq_or_ne status 21010 with h8 | h8
  · rw [if_pos h8] at h; exact StepR.noConfusion h
  rw [if_neg h8] at h
  rcases eq_or_ne status 21009 with h9 | h9
  · rw [if_pos h9] at h; exact StepR.noConfusion h
  rw [if_neg h9] at h
  by_cases hr : 21100 ≤ status ∧ status ≤ 21199
  · rw [if_pos hr] at h; exact StepR.noConfusion h
  rw [if_neg hr] at h
  by_cases hz : status ≠ 0
  · rw [if_pos hz] at h; exact StepR.noConfusion h
  rw [if_neg hz] at h
  split at h
  next => exact StepR.noConfusion h
  next receipt0 =>
  split at h
  next => exact StepR.noConfusion h
  next =>
  split at h
  next => exact StepR.noConfusion h
  next =>
  split at h
  next hl =>
    obtain rfl := StepR.done.inj h
    exact ⟨_, rfl, rfl⟩
  next lr hl =>
  split at h
  next =>
    split at h
    next => exact StepR.noConfusion h
    next =>
      obtain rfl := StepR.done.inj h
      exact ⟨_, rfl, rfl⟩
  next =>
    obtain rfl := StepR.done.inj h
    exact ⟨_, rfl, rfl⟩

/-- Derivation rule for the sandbox flag used by `decode_receipt`
(`original_application_version == "1.0" and environment != "Production"`),
transcribed to the JSON receipt record so the two pipelines can be
compared. -/
def derivedSandbox (r : JsonReceipt) : Bool :=
  (r.original_application_version == some "1.0") &&
  !(r.environment == some "Production")

/-- Concrete remote receipt for refuting C9: Apple's JSON receipt whose own
fields derive `sandbox = true`. -/
def c9Receipt : JsonReceipt :=
  { original_application_version := some "1.0", in_app := some [{}] }

/-- Concrete successful remote response carrying `c9Receipt`. -/
def c9Content : JsonContent :=
  { status := some 0, receipt := some c9Receipt }

/-- The record `validate_receipt_with_apple` exposes to the policy and
activity stages for `c9Content` answered by the production endpoint. -/
def c9ExposedReceipt : JsonReceipt :=
  { c9Receipt with sandbox := some false }

/-- Counterexample to C9: a successful production-endpoint response whose
receipt derives `sandbox = true` from its own fields, yet the record exposed
onward carries `sandbox = some false` — `validate_receipt_with_apple`
assigns the flag from which endpoint answered, independently of the
derivation. -/
theorem c9_counterexample :
    (validate_receipt_with_apple (fun _ => "r") (fun _ => none) none
        (fun _ => ApplePost.json c9Content) []).1 =
      VOutcome.ok { c9Content with receipt := some c9ExposedReceipt } ∧
    c9ExposedReceipt.sandbox = some false ∧
    derivedSandbox c9ExposedReceipt = true := by
  refine ⟨by decide, by decide, by decide⟩

/-- C9 (amended): the remote validation client always sets the exposed
receipt's sandbox flag from which endpoint answered — `some false` when the
production endpoint returned the successful response (trace of one POST),
`some true` when the sandbox endpoint did (trace of two POSTs) — rather
than from the `original_application_version`/`environment` derivation that
`decode_receipt` uses. -/
theorem c9_sandbox_flag_assignment (b64e : List Nat → String)
    (b64d : String → Option (List Nat)) (secret : Option String)
    (oracle : Bool → ApplePost) (data : List Nat) (c : JsonContent)
    (tr : List (Bool × Payload))
    (h : validate_receipt_with_apple b64e b64d secret oracle data =
      (VOutcome.ok c, tr)) :
    ∃ rec, c.receipt = some rec ∧
      ((tr = [(true, mkPayload b64e secret data)] ∧ rec.sandbox = some false) ∨
       (tr = [(true, mkPayload b64e secret data),
              (false, mkPayload b64e secret data)] ∧
        rec.sandbox = some true)) := by
  have hmain : runUrls b64d oracle (mkPayload b64e secret data) [true, false] =
      (VOutcome.ok c, tr) := h
  cases h1 : processResponse true b64d (oracle true) with
  | raise e => simp only [runUrls, h1] at hmain; simp at hmain
  | done c' =>
      simp only [runUrls, h1] at hmain
      obtain ⟨hc, htr⟩ := Prod.mk.inj hmain
      obtain ⟨rec, hrec, hs⟩ := processResponse_done_receipt true b64d _ c' h1
      obtain rfl := VOutcome.ok.inj hc
      exact ⟨rec, hrec, Or.inl ⟨htr.symm, hs⟩⟩
  | next =>
      cases h2 : processResponse false b64d (oracle false) with
      | raise e => simp only [runUrls, h1, h2] at hmain; simp at hmain
      | next => simp only [runUrls, h1, h2] at hmain; simp at hmain
      | done c' =>
          simp only [runUrls, h1, h2] at hmain
          obtain ⟨hc, htr⟩ := Prod.mk.inj hmain
          obtain ⟨rec, hrec, hs⟩ := processResponse_done_receipt false b64d _ c' h2
          obtain rfl := VOutcome.ok.inj hc
          exact ⟨rec, hrec, Or.inr ⟨htr.symm, hs⟩⟩

/-- Witness for the amended C9 at the concrete production-endpoint input. -/
theorem c9_sandbox_flag_assignment_witness :
    ∃ rec,
      ({ c9Content with receipt := some c9ExposedReceipt } : JsonContent).receipt =
        some rec ∧
      (([(true, mkPayload (fun _ => "r") none [])] =
          [(true, mkPayload (fun _ => "r") none [])] ∧ rec.sandbox = some false) ∨
       ([(true, mkPayload (fun _ => "r") none [])] =
          [(true, mkPayload (fun _ => "r") none []),
           (false, mkPayload (fun _ => "r") none [])] ∧ rec.sandbox = some true)) :=
  c9_sandbox_flag_assignment (fun _ => "r") (fun _ => none) none
    (fun _ => ApplePost.json c9Content) []
    { c9Content with receipt := some c9ExposedReceipt }
    [(true, mkPayload (fun _ => "r") none [])] (by rfl)

theorem decode_receipt_fields_eq (attrs : List RawAttr) (r : DecodedReceipt)
    (h : decode_receipt attrs = some r) : r.fields = (decodeFields attrs).1 := by
  unfold decode_receipt at h
  split at h
  · exact Option.noConfusion h
  · obtain rfl := Option.some.inj h
    rfl

theorem decode_receipt_sandbox_eq (attrs : List RawAttr) (r : DecodedReceipt)
    (h : decode_receipt attrs = some r) :
    r.sandbox =
      (decide (dictGet r.fields "original_application_version" =
          some (PyVal.str "1.0"))
       && !decide (dictGet r.fields "_environment" =
          some (PyVal.str "Production"))) := by
  unfold decode_receipt at h
  split at h
  · exact Option.noConfusion h
  · obtain rfl := Option.some.inj h
    rfl

theorem receiptFieldName_creation_date_inv (t : Int)
    (h : receiptFieldName t = some "creation_date") : t = 12 := by
  unfold receiptFieldName at h
  split_ifs at h <;> simp_all

theorem receiptFieldName_orig_purchase_inv (t : Int)
    (h : receiptFieldName t = some "original_purchase_date") : t = 18 := by
  unfold receiptFieldName at h
  split_ifs at h <;> simp_all

theorem receiptFieldName_in_app_inv (t : Int)
    (h : receiptFieldName t = some "in_app") : t = 17 := by
  unfold receiptFieldName at h
  split_ifs at h <;> simp_all

theorem foldl_fields_get_skip (n : String) :
    ∀ (ys : List RawAttr) (acc : List (String × PyVal) × List RawAttr),
      (∀ b ∈ ys, ∀ m, receiptFieldName b.typeCode = some m →
        m = "in_app" ∨ m ≠ n) →
      dictGet (ys.foldl decodeFieldsStep acc).1 n = dictGet acc.1 n := by
  intro ys
  induction ys with
  | nil => intro acc h; rfl
  | cons b ys ih =>
      intro acc h
      rw [List.foldl_cons, ih _ (fun b' hb' => h b' (List.mem_cons_of_mem _ hb'))]
      unfold decodeFieldsStep
      cases hm : receiptFieldName b.typeCode with
      | none => rfl
      | some m =>
          rcases h b (List.mem_cons_self b ys) m hm with hm' | hm'
          · rw [hm']; simp
          · by_cases h17 : m = "in_app"
            · simp [h17]
            · simp only [h17, if_false]
              exact dictGet_dictSet_other acc.1 m n (storeVal b) (Ne.symm hm')

theorem decodeFieldsStep_get_set (acc : List (String × PyVal) × List RawAttr)
    (a : RawAttr) (n : String) (hm : receiptFieldName a.typeCode = some n)
    (hn : n ≠ "in_app") :
    dictGet (decodeFieldsStep acc a).1 n = some (storeVal a) := by
  unfold decodeFieldsStep
  simp only [hm, hn, if_false]
  exact dictGet_dictSet_same acc.1 n (storeVal a)

theorem decode_receipt_last_tag_value (xs ys : List RawAttr) (a : RawAttr)
    (n : String) (r : DecodedReceipt)
    (hmap : receiptFieldName a.typeCode = some n) (hn : n ≠ "in_app")
    (hys : ∀ b ∈ ys, ∀ m, receiptFieldName b.typeCode = some m →
      m = "in_app" ∨ m ≠ n)
    (h : decode_receipt (xs ++ a :: ys) = some r) :
    dictGet r.fields n = some (storeVal a) := by
  rw [decode_receipt_fields_eq _ _ h]
  unfold decodeFields
  rw [List.foldl_append, List.foldl_cons]
  rw [foldl_fields_get_skip n ys _ hys]
  exact decodeFieldsStep_get_set _ a n hmap hn

/-- C5: for every successfully decoded receipt, the derived sandbox flag
equals `(original_application_version == "1.0") and
(environment != "Production")`; a missing `original_application_version`
yields `false`, and a missing `_environment` counts as not-"Production". -/
theorem c5_sandbox_derivation (attrs : List RawAttr) (r : DecodedReceipt)
    (h : decode_receipt attrs = some r) :
    (r.sandbox = true ↔
      (dictGet r.fields "original_application_version" = some (PyVal.str "1.0") ∧
       dictGet r.fields "_environment" ≠ some (PyVal.str "Production"))) ∧
    (dictGet r.fields "original_application_version" = none → r.sandbox = false) ∧
    (dictGet r.fields "original_application_version" = some (PyVal.str "1.0") →
      dictGet r.fields "_environment" = none → r.sandbox = true) := by
  have hs := decode_receipt_sandbox_eq attrs r h
  refine ⟨?_, ?_, ?_⟩
  · rw [hs]; simp
  · intro h1; rw [hs, h1]; simp
  · intro h1 h2; rw [hs, h1, h2]; simp

/-- Witness for C5 at a one-attribute payload. -/
theorem c5_sandbox_derivation_witness :
    decode_receipt [⟨19, 1, [], some (PyVal.str "1.0"), none⟩] =
      some { fields := [("original_application_version", PyVal.str "1.0")],
             in_app := [], sandbox := true } ∧
    (({ fields := [("original_application_version", PyVal.str "1.0")],
        in_app := [], sandbox := true } : DecodedReceipt).sandbox = true ↔
      (dictGet [("original_application_version", PyVal.str "1.0")]
          "original_application_version" = some (PyVal.str "1.0") ∧
       dictGet [("original_application_version", PyVal.str "1.0")]
          "_environment" ≠ some (PyVal.str "Production"))) := by
  refine ⟨by decide, ?_⟩
  exact (c5_sandbox_derivation [⟨19, 1, [], some (PyVal.str "1.0"), none⟩]
    { fields := [("original_application_version", PyVal.str "1.0")],
      in_app := [], sandbox := true } (by decide)).1

/-- C6: the receipt field map assigns tag 12 to `creation_date` and tag 18
to `original_purchase_date`, and for every payload containing such an
attribute (with no later attribute of the same tag) whose IA5String value
decodes, `decode_receipt` populates the corresponding field with the decoded
string, passed through as-is. -/
theorem c6_date_field_tags :
    receiptFieldName 12 = some "creation_date" ∧
    receiptFieldName 18 = some "original_purchase_date" ∧
    (∀ (xs ys : List RawAttr) (a : RawAttr) (s : String) (r : DecodedReceipt),
      a.typeCode = 12 → a.innerDecode = some (PyVal.str s) →
      (∀ b ∈ ys, b.typeCode ≠ 12) →
      decode_receipt (xs ++ a :: ys) = some r →
      dictGet r.fields "creation_date" = some (PyVal.str s)) ∧
    (∀ (xs ys : List RawAttr) (a : RawAttr) (s : String) (r : DecodedReceipt),
      a.typeCode = 18 → a.innerDecode = some (PyVal.str s) →
      (∀ b ∈ ys, b.typeCode ≠ 18) →
      decode_receipt (xs ++ a :: ys) = some r →
      dictGet r.fields "original_purchase_date" = some (PyVal.str s)) := by
  refine ⟨by decide, by decide, ?_, ?_⟩
  · intro xs ys a s r ht hd hys h
    have hmap : receiptFieldName a.typeCode = some "creation_date" := by
      rw [ht]; decide
    have hv := decode_receipt_last_tag_value xs ys a "creation_date" r hmap
      (by decide)
      (fun b hb m hm => Or.inr (fun he =>
        hys b hb (receiptFieldName_creation_date_inv b.typeCode (he ▸ hm)))) h
    rw [hv]
    simp [storeVal, hd]
  · intro xs ys a s r ht hd hys h
    have hmap : receiptFieldName a.typeCode = some "original_purchase_date" := by
      rw [ht]; decide
    have hv := decode_receipt_last_tag_value xs ys a "original_purchase_date" r hmap
      (by decide)
      (fun b hb m hm => Or.inr (fun he =>
        hys b hb (receiptFieldName_orig_purchase_inv b.typeCode (he ▸ hm)))) h
    rw [hv]
    simp [storeVal, hd]

/-- Witness for C6 at one-attribute payloads for tags 12 and 18. -/
theorem c6_date_field_tags_witness :
    dictGet ({ fields := [("creation_date", PyVal.str "today")],
               in_app := [], sandbox := false } : DecodedReceipt).fields
      "creation_date" = some (PyVal.str "today") ∧
    dictGet ({ fields := [("original_purchase_date", PyVal.str "then")],
               in_app := [], sandbox := false } : DecodedReceipt).fields
      "original_purchase_date" = some (PyVal.str "then") := by
  constructor
  · exact c6_date_field_tags.2.2.1 [] [] ⟨12, 1, [], some (PyVal.str "today"), none⟩
      "today" _ rfl rfl (by simp) (by decide)
  · exact c6_date_field_tags.2.2.2 [] [] ⟨18, 1, [], some (PyVal.str "then"), none⟩
      "then" _ rfl rfl (by simp) (by decide)

theorem foldl_fields_snd_skip :
    ∀ (attrs : List RawAttr) (acc : List (String × PyVal) × List RawAttr),
      (∀ a ∈ attrs, a.typeCode ≠ 17) →
      (attrs.foldl decodeFieldsStep acc).2 = acc.2 := by
  intro attrs
  induction attrs with
  | nil => intro acc h; rfl
  | cons b ys ih =>
      intro acc h
      rw [List.foldl_cons, ih _ (fun a ha => h a (List.mem_cons_of_mem _ ha))]
      unfold decodeFieldsStep
      cases hm : receiptFieldName b.typeCode with
      | none => rfl
      | some m =>
          by_cases h17 : m = "in_app"
          · exact absurd (receiptFieldName_in_app_inv b.typeCode (h17 ▸ hm))
              (h b (List.mem_cons_self b ys))
          · simp [h17]

/-- Counterexample to C7 as stated: two payloads whose outer SET OF parses
and whose only attribute carries the mapped tag 17 (`in_app`) with a
malformed inner value — once where `InAppPayload.load` itself raises, once
where a nested in-app field's decode raises.  `decode_receipt` raises
(returns no record at all) instead of dropping the field. -/
theorem c7_counterexample :
    decode_receipt [⟨17, 1, [49], some (PyVal.bytes [49]), none⟩] = none ∧
    decode_receipt [⟨17, 1, [49], some (PyVal.bytes [49]),
      some [⟨1701, 1, [50], none⟩]⟩] = none := by
  exact ⟨rfl, rfl⟩

/-- C7 (amended): an attribute whose tag is not in the field map is silently
dropped without affecting the result; a payload with no tag-17 attribute
always decodes to a (partial) record, and a malformed inner DER value for a
mapped top-level scalar field is non-fatal for that field only — the raw
value bytes are stored in its place.  (A malformed tag-17 `in_app` value, by
contrast, aborts the whole decode: see the counterexample.) -/
theorem c7_partial_decode :
    (∀ (xs ys : List RawAttr) (u : RawAttr),
      receiptFieldName u.typeCode = none →
      decode_receipt (xs ++ u :: ys) = decode_receipt (xs ++ ys)) ∧
    (∀ attrs : List RawAttr, (∀ a ∈ attrs, a.typeCode ≠ 17) →
      ∃ r, decode_receipt attrs = some r) ∧
    (∀ (xs ys : List RawAttr) (a : RawAttr) (n : String) (r : DecodedReceipt),
      receiptFieldName a.typeCode = some n → n ≠ "in_app" →
      a.innerDecode = none →
      (∀ b ∈ ys, receiptFieldName b.typeCode ≠ some n) →
      decode_receipt (xs ++ a :: ys) = some r →
      dictGet r.fields n = some (PyVal.bytes a.valueBytes)) := by
  refine ⟨?_, ?_, ?_⟩
  · intro xs ys u hu
    have hf : decodeFields (xs ++ u :: ys) = decodeFields (xs ++ ys) := by
      unfold decodeFields
      rw [List.foldl_append, List.foldl_append, List.foldl_cons]
      congr 1
      unfold decodeFieldsStep
      rw [hu]
    unfold decode_receipt
    rw [hf]
  · intro attrs h
    have h2 : (decodeFields attrs).2 = [] := foldl_fields_snd_skip attrs ([], []) h
    refine ⟨{ fields := (decodeFields attrs).1, in_app := [],
              sandbox :=
                decide (dictGet (decodeFields attrs).1 "original_application_version" =
                  some (PyVal.str "1.0"))
                && !decide (dictGet (decodeFields attrs).1 "_environment" =
                  some (PyVal.str "Production")) }, ?_⟩
    unfold decode_receipt
    rw [h2]
    rfl
  · intro xs ys a n r hmap hn hd hys h
    have hv := decode_receipt_last_tag_value xs ys a n r hmap hn
      (fun b hb m hm => Or.inr (fun he => hys b hb (he ▸ hm))) h
    rw [hv]
    simp [storeVal, hd]

/-- Witness for the amended C7 at concrete payloads: an unknown tag 999 is
dropped, a tag-12 attribute with a failing inner decode still yields a
record holding the raw bytes. -/
theorem c7_partial_decode_witness :
    decode_receipt [⟨999, 1, [7], none, none⟩] = decode_receipt [] ∧
    (∃ r, decode_receipt [⟨12, 1, [1, 2], none, none⟩] = some r) ∧
    dictGet ({ fields := [("creation_date", PyVal.bytes [1, 2])],
               in_app := [], sandbox := false } : DecodedReceipt).fields
      "creation_date" = some (PyVal.bytes [1, 2]) := by
  refine ⟨?_, ?_, ?_⟩
  · exact c7_partial_decode.1 [] [] ⟨999, 1, [7], none, none⟩ (by decide)
  · exact c7_partial_decode.2.1 [⟨12, 1, [1, 2], none, none⟩] (by simp)
  · exact c7_partial_decode.2.2 [] [] ⟨12, 1, [1, 2], none, none⟩ "creation_date"
      _ (by decide) (by decide) rfl (by simp) (by decide)
